import Mathlib

/-!
Shallow embedding of the `gator-hacks-23` query-resolution pipeline
(`src/main.py`, endpoint `find_page`, together with the helpers it uses
from `src/web_utils.py`).

External collaborators (the GPT-4 wrapper, the Google search client, the
page fetcher, the validators and `get_base_url`) are modelled as oracle
functions collected in an `Env` record; the handler itself is translated
statement by statement.  Besides the HTTP response, the embedding records
a trace of outbound collaborator calls, which lets us state the
"no search / no fetch happens on this path" properties.

Python-specific semantics that the embedding reproduces faithfully:

* `data.get('url', None)` / `data.get('query', None)` — the two request
  fields are `Option String`.
* `if not is_user_searching:` — Python truthiness: both `False` and
  `None` take this branch, so the later `if is_user_searching is None:`
  check is unreachable.  The classifier result is `Option Bool` and the
  branch tests `truthy`.
* the search loop accumulates `json.dumps(result)` strings in a set and
  rebuilds `unique_results_list` from it; candidates are an opaque type
  `Cand` with `serialize`/`deserialize` oracles standing for
  `json.dumps`/`json.loads`.  (CPython iterates a `set` in an arbitrary
  order; the embedding fixes the first-occurrence order, and every
  property proved about the resulting collection is order-insensitive.)
* the verifier loop `for result in unique_results_list:` mutates the
  list it iterates (`unique_results_list.remove(result)`), so it follows
  the CPython list-iterator protocol: a hidden index `i`, the guard
  `i < len(lst)`, `result = lst[i]`, and `remove` deleting the first
  element equal to `result` before the index advances.
-/

namespace GatorHacks

/-- Oracle record for the external collaborators used by `find_page`:
the GPT-4 wrapper methods, the search client, the page fetcher, the
validators, `get_base_url`, and the JSON round-trip.  `Cand` is the
opaque type of one search result (a JSON object in the source). -/
structure Env (Cand : Type) where
  is_user_searching : String → String → Option Bool
  gen_unfocused_response : String → String → String
  get_search_queries : String → String → List String
  get_top_result : String → Option Cand
  get_relevant_result : String → String → List Cand → Option String
  fetch_page_content : Option String → Option String
  gen_customer_response : String → String → String → Option String → String
  is_valid_url : String → Bool
  is_valid_query : String → Bool
  get_base_url : String → String
  serialize : Cand → String
  deserialize : String → Cand

/-- Body of a JSON response from `find_page`: either
`{'link': ..., 'message': ...}` or `{'error': ...}`. -/
inductive Body where
  | payload (link : Option String) (message : String)
  | errorMsg (msg : String)
  deriving DecidableEq

/-- An HTTP response: status code plus JSON body. -/
structure Resp where
  status : Nat
  body : Body
  deriving DecidableEq

/-- One outbound collaborator call made while handling a request. -/
inductive Event (Cand : Type) where
  | classifyIntent (q url : String)
  | unfocused (q url : String)
  | expand (q base : String)
  | searchTop (q : String)
  | selectBest (q base : String) (cands : List Cand)
  | fetchContent (link : Option String)
  | synthGrounded (q base link : String) (content : Option String)
  deriving DecidableEq

/-- Python truthiness of the classifier result: `None` and `False` are
falsy, `True` is truthy. -/
def truthy : Option Bool → Bool
  | some b => b
  | none => false

variable {Cand : Type} [DecidableEq Cand]

/-- The source's verifier loop (`main.py` lines 78–87):

```
for result in unique_results_list:
    relevant_link = gpt4.get_relevant_result(query, base_url, unique_results_list)
    page_content = fetch_page_content(relevant_link)
    if page_content is not None:
        break
    unique_results_list.remove(result)
```

CPython semantics of iterating a list while removing from it: the
iterator keeps an index `i`; each round checks `i < len(lst)`, binds
`result = lst[i]`, runs the body, and then increments `i`.  On fetch
failure the body removes the first element equal to `result` (not the
selected link!), shrinking the list under the iterator.  `acc` carries
the values of `relevant_link`/`page_content` from the previous
iteration, which the code after the loop reads when the loop ends
without `break`.  Returns those two variables plus the call trace.

The recursion is driven by a `fuel` counter so that the definition is
structural (and hence computes definitionally); `verifierLoopF_fuel_irrel`
below shows any fuel of at least `lst.length - i` gives the same result,
i.e. the fuel-exhaustion branch is unreachable from the entry point
`verifierLoop`, which supplies `lst.length`. -/
def verifierLoopF (env : Env Cand) (q base : String) :
    Nat → List Cand → Nat → Option String × Option String →
      (Option String × Option String) × List (Event Cand)
  | 0, _, _, acc => (acc, [])
  | fuel + 1, lst, i, acc =>
    if h : i < lst.length then
      let result := lst.get ⟨i, h⟩
      let rl := env.get_relevant_result q base lst
      let pc := env.fetch_page_content rl
      if pc.isSome then
        ((rl, pc), [Event.selectBest q base lst, Event.fetchContent rl])
      else
        let rest := verifierLoopF env q base fuel (lst.erase result) (i + 1) (rl, pc)
        (rest.1, Event.selectBest q base lst :: Event.fetchContent rl :: rest.2)
    else (acc, [])

/-- Entry point of the verifier loop: iterate from index `0` with both
`relevant_link` and `page_content` unbound (`none`) and enough fuel for
every iteration. -/
def verifierLoop (env : Env Cand) (q base : String) (lst : List Cand) :
    (Option String × Option String) × List (Event Cand) :=
  verifierLoopF env q base lst.length lst 0 (none, none)

/-- The search-and-dedup loop (`main.py` lines 62–73): each expanded
query is searched; `None` results are skipped (`continue`); successful
results are serialized (`json.dumps`), collected into a set of strings,
and the working list is rebuilt by deserializing (`json.loads`) the
set's elements.  The set is modelled by `List.dedup` on the serialized
strings (first-occurrence order standing for CPython's arbitrary set
order). -/
def searchResultsList (env : Env Cand) (sqs : List String) : List Cand :=
  (((sqs.filterMap env.get_top_result).map env.serialize).dedup).map env.deserialize

/-- The searching branch of `find_page` (`main.py` lines 60–94) given
the already-expanded queries `sqs`: run the search loop, short-circuit
to 423 on an empty candidate list, run the verifier loop, return 424
when `relevant_link` is Python `None` or the string `'None'`, and
otherwise synthesize and return 200. -/
def searchAndVerify (env : Env Cand) (q base : String) (sqs : List String) :
    Resp × List (Event Cand) :=
  let uniqueResults := searchResultsList env sqs
  let evs1 := Event.expand q base :: sqs.map Event.searchTop
  if uniqueResults.length = 0 then
    (⟨423, Body.errorMsg "No relevant links found."⟩, evs1)
  else
    let r := verifierLoop env q base uniqueResults
    let evs2 := evs1 ++ r.2
    match r.1.1 with
    | none => (⟨424, Body.errorMsg "No relevant links found."⟩, evs2)
    | some l =>
      if l = "None" then (⟨424, Body.errorMsg "No relevant links found."⟩, evs2)
      else
        (⟨200, Body.payload (some l) (env.gen_customer_response q base l r.1.2)⟩,
         evs2 ++ [Event.synthGrounded q base l r.1.2])

/-- The `/find/page` handler (`main.py` lines 22–94): missing-field
checks (401/402), validator checks (421/422), intent classification
(`if not is_user_searching:` → unfocused 200; the dead
`is None` → 500 check), then the searching pipeline. -/
def find_page (env : Env Cand) (url query : Option String) :
    Resp × List (Event Cand) :=
  match url with
  | none => (⟨401, Body.errorMsg "Missing url parameter."⟩, [])
  | some u =>
    match query with
    | none => (⟨402, Body.errorMsg "Missing query parameter."⟩, [])
    | some q =>
      if env.is_valid_url u = false then (⟨421, Body.errorMsg "Invalid URL."⟩, [])
      else if env.is_valid_query q = false then
        (⟨422, Body.errorMsg "Invalid query."⟩, [])
      else
        let cls := env.is_user_searching q u
        if truthy cls = false then
          (⟨200, Body.payload none (env.gen_unfocused_response q u)⟩,
           [Event.classifyIntent q u, Event.unfocused q u])
        else if cls = none then
          (⟨500, Body.errorMsg "An error occurred."⟩, [Event.classifyIntent q u])
        else
          let base := env.get_base_url u
          let r := searchAndVerify env q base (env.get_search_queries q base)
          (r.1, Event.classifyIntent q u :: r.2)

/-- The deduplication step as a set of canonical serializations: the
contents of the source's `results` set of `json.dumps` strings. -/
def dedupStrings (env : Env Cand) (xs : List Cand) : Finset String :=
  ((xs.map env.serialize).toFinset)

/-- The deduplication step as a candidate collection: the source's
`unique_results_list = [json.loads(x) for x in results]` (again with
the set enumerated in first-occurrence order). -/
def dedupCandidates (env : Env Cand) (xs : List Cand) : List Cand :=
  ((xs.map env.serialize).dedup).map env.deserialize

/-- The sequence of links passed to `fetch_page_content`, read off a
call trace. -/
def fetchedLinks (tr : List (Event Cand)) : List (Option String) :=
  tr.filterMap fun e =>
    match e with
    | Event.fetchContent l => some l
    | _ => none

/-- A concrete collaborator environment over `Cand := String`
(candidates are their own serializations): one expanded query, the
search echoes the query as its top result, the selector picks the head
of the working list, fetching succeeds, all validators accept. -/
def envBase : Env String where
  is_user_searching := fun _ _ => some true
  gen_unfocused_response := fun _ _ => "unfocused reply"
  get_search_queries := fun _ _ => ["s1"]
  get_top_result := fun s => some s
  get_relevant_result := fun _ _ lst => some (lst.headD "x")
  fetch_page_content := fun l => l.map (fun s => "content of " ++ s)
  gen_customer_response := fun _ _ _ _ => "grounded reply"
  is_valid_url := fun _ => true
  is_valid_query := fun _ => true
  get_base_url := fun _ => "http://a.example"
  serialize := id
  deserialize := id

/-- `envBase` with every page fetch failing: one candidate, whose
single fetch attempt fails. -/
def envAllFail : Env String :=
  { envBase with fetch_page_content := fun _ => none }

/-- `envBase` with five distinct candidates and every page fetch
failing; the selector still picks the head of the working list. -/
def envFiveCands : Env String :=
  { envBase with
    get_search_queries := fun _ _ => ["a", "b", "c", "d", "e"]
    fetch_page_content := fun _ => none }

/-- `envBase` with an undecidable intent classification (the GPT-4
wrapper returns Python `None`). -/
def envUnknown : Env String :=
  { envBase with is_user_searching := fun _ _ => none }

/-- `envBase` with the intent classifier returning a definite no. -/
def envNotSearching : Env String :=
  { envBase with is_user_searching := fun _ _ => some false }

/-- `envBase` with both validators rejecting every input. -/
def envInvalid : Env String :=
  { envBase with
    is_valid_url := fun _ => false
    is_valid_query := fun _ => false }

/-- `envBase` with the search provider returning no result for any
query. -/
def envNoHits : Env String :=
  { envBase with get_top_result := fun _ => none }

/-- `envBase` with the search provider returning no result for the
query `"dead"` and echoing every other query. -/
def envDeadQuery : Env String :=
  { envBase with
    get_top_result := fun s => if s = "dead" then none else some s }

/-- The fuel argument of `verifierLoopF` is irrelevant as soon as it
covers `lst.length - i`, which shrinks by at least two on every
iteration (the index advances and the list loses the cursor element):
the loop genuinely terminates within `lst.length` rounds. -/
theorem verifierLoopF_fuel_irrel (env : Env Cand) (q base : String) :
    ∀ fuel₁ fuel₂ (lst : List Cand) (i : Nat) (acc : Option String × Option String),
      lst.length - i ≤ fuel₁ → lst.length - i ≤ fuel₂ →
      verifierLoopF env q base fuel₁ lst i acc = verifierLoopF env q base fuel₂ lst i acc := by
  intro fuel₁
  induction fuel₁ with
  | zero =>
    intro fuel₂ lst i acc h₁ h₂
    have hle : lst.length ≤ i := by omega
    cases fuel₂ with
    | zero => rfl
    | succ f =>
      simp only [verifierLoopF]
      rw [dif_neg (by omega)]
  | succ f₁ ih =>
    intro fuel₂ lst i acc h₁ h₂
    by_cases hlt : i < lst.length
    · cases fuel₂ with
      | zero => omega
      | succ f₂ =>
        simp only [verifierLoopF]
        rw [dif_pos hlt, dif_pos hlt]
        by_cases hpc : (env.fetch_page_content (env.get_relevant_result q base lst)).isSome
        · simp only [hpc, if_true]
        · simp only [hpc, if_false]
          have hmem : lst.get ⟨i, hlt⟩ ∈ lst := lst.get_mem i hlt
          have hlen := List.length_erase_of_mem hmem
          rw [ih f₂ (lst.erase (lst.get ⟨i, hlt⟩)) (i + 1) _ (by omega) (by omega)]
    · simp only [verifierLoopF]
      rw [dif_neg hlt]
      cases fuel₂ with
      | zero => rfl
      | succ f₂ =>
        simp only [verifierLoopF]
        rw [dif_neg hlt]

/-- Claim C1: the spec says that when every selected candidate's fetch
fails the endpoint returns 424 and never 200.  The code diverges: in
`envAllFail` every page fetch fails (first conjunct), yet after the
verifier loop exhausts the list the handler falls through with the last
selected link still bound and returns `200` with that never-fetched
link and a message synthesized from `None` page content — not 424. -/
theorem claim_C1_code_divergence :
    envAllFail.fetch_page_content = (fun _ => none) ∧
    (find_page envAllFail (some "http://u") (some "q")).1 =
      ⟨200, Body.payload (some "s1") "grounded reply"⟩ :=
  ⟨rfl, rfl⟩

/-- Claim C2: the spec says a candidate whose fetch fails is removed
and never selected or fetched again.  The code diverges: with five
candidates `a…e`, a selector that picks the head of the working list
and all fetches failing, the loop fetches `a`, then `b`, then `b`
again — candidate `b` is selected and fetched twice because
`unique_results_list.remove(result)` removes the iteration cursor's
element (`a`, then `c`, then `e`), never the selected one. -/
theorem claim_C2_code_divergence :
    fetchedLinks (find_page envFiveCands (some "http://u") (some "q")).2 =
      [some "a", some "b", some "b"] :=
  rfl

/-- Claim C3: the spec says an undecidable (`None`) intent
classification yields the generic 500 and is never treated as
NotSearching.  The code diverges: `if not is_user_searching:` catches
Python `None` (falsy) before the dead `is None` check, so the handler
returns `200` with an unfocused message. -/
theorem claim_C3_code_divergence :
    envUnknown.is_user_searching = (fun _ _ => none) ∧
    (find_page envUnknown (some "http://u") (some "q")).1 =
      ⟨200, Body.payload none "unfocused reply"⟩ :=
  ⟨rfl, rfl⟩

/-- Claim C4: when the intent classifier returns a definite
NotSearching, the endpoint answers `200` with a null link and exactly
the unfocused synthesizer's message (non-empty whenever that
collaborator's reply is), and the request trace contains no search call
and no fetch call. -/
theorem claim_C4_not_searching (env : Env Cand) (u q : String)
    (hu : env.is_valid_url u = true) (hq : env.is_valid_query q = true)
    (hcls : env.is_user_searching q u = some false)
    (hmsg : env.gen_unfocused_response q u ≠ "") :
    (find_page env (some u) (some q)).1 =
      ⟨200, Body.payload none (env.gen_unfocused_response q u)⟩ ∧
    env.gen_unfocused_response q u ≠ "" ∧
    (∀ s, Event.searchTop s ∉ (find_page env (some u) (some q)).2) ∧
    (∀ l, Event.fetchContent l ∉ (find_page env (some u) (some q)).2) := by
  have htrace : find_page env (some u) (some q) =
      (⟨200, Body.payload none (env.gen_unfocused_response q u)⟩,
       [Event.classifyIntent q u, Event.unfocused q u]) := by
    simp [find_page, hu, hq, hcls, truthy]
  refine ⟨by rw [htrace], hmsg, ?_, ?_⟩ <;> intro x <;> rw [htrace] <;> simp

/-- Witness for `claim_C4_not_searching` at the concrete environment
`envNotSearching`. -/
theorem claim_C4_witness :
    envNotSearching.is_user_searching "q" "http://u" = some false ∧
    (find_page envNotSearching (some "http://u") (some "q")).1 =
      ⟨200, Body.payload none "unfocused reply"⟩ ∧
    (∀ s, Event.searchTop s ∉ (find_page envNotSearching (some "http://u") (some "q")).2) := by
  have h := claim_C4_not_searching envNotSearching "http://u" "q" rfl rfl rfl (by decide)
  exact ⟨rfl, h.1, h.2.2.1⟩

/-- Claim C9: the input checks run in a fixed order: a request missing
both fields is answered with the missing-url error 401 (never 402), and
a request whose url and query are both present but both invalid is
answered with the invalid-url error 421 (never 422). -/
theorem claim_C9_check_order (env : Env Cand) (u q : String)
    (hu : env.is_valid_url u = false) (hq : env.is_valid_query q = false) :
    (find_page env none none).1 = ⟨401, Body.errorMsg "Missing url parameter."⟩ ∧
    (find_page env (some u) (some q)).1 = ⟨421, Body.errorMsg "Invalid URL."⟩ := by
  refine ⟨rfl, ?_⟩
  simp [find_page, hu]

/-- Witness for `claim_C9_check_order` at the concrete environment
`envInvalid`. -/
theorem claim_C9_witness :
    envInvalid.is_valid_url "u" = false ∧ envInvalid.is_valid_query "nope" = false ∧
    (find_page envInvalid none none).1 = ⟨401, Body.errorMsg "Missing url parameter."⟩ ∧
    (find_page envInvalid (some "u") (some "nope")).1 =
      ⟨421, Body.errorMsg "Invalid URL."⟩ := by
  have h := claim_C9_check_order envInvalid "u" "nope" rfl rfl
  exact ⟨rfl, rfl, h.1, h.2⟩

/-- Claim C7: on the Searching path, if query expansion yields no
queries, or every expanded query's search comes back absent, the
endpoint answers with the NoCandidates error `423` and the verifier
loop is never entered: the trace holds no candidate selection and no
fetch. -/
theorem claim_C7_no_candidates (env : Env Cand) (u q : String)
    (hu : env.is_valid_url u = true) (hq : env.is_valid_query q = true)
    (hcls : env.is_user_searching q u = some true)
    (hexp : env.get_search_queries q (env.get_base_url u) = [] ∨
      ∀ s ∈ env.get_search_queries q (env.get_base_url u), env.get_top_result s = none) :
    (find_page env (some u) (some q)).1 =
      ⟨423, Body.errorMsg "No relevant links found."⟩ ∧
    (∀ qq bb (cc : List Cand),
      Event.selectBest qq bb cc ∉ (find_page env (some u) (some q)).2) ∧
    (∀ l, Event.fetchContent l ∉ (find_page env (some u) (some q)).2) := by
  have hnil :
      (env.get_search_queries q (env.get_base_url u)).filterMap env.get_top_result = [] := by
    rcases hexp with h | h
    · rw [h]; rfl
    · exact List.filterMap_eq_nil_iff.mpr h
  have hfind : find_page env (some u) (some q) =
      (⟨423, Body.errorMsg "No relevant links found."⟩,
       Event.classifyIntent q u :: Event.expand q (env.get_base_url u) ::
         (env.get_search_queries q (env.get_base_url u)).map Event.searchTop) := by
    simp [find_page, searchAndVerify, searchResultsList, hu, hq, hcls, truthy, hnil]
  refine ⟨by rw [hfind], ?_, ?_⟩ <;> intro x <;> rw [hfind] <;> simp

/-- Witness for `claim_C7_no_candidates` at the concrete environment
`envNoHits` (one expanded query whose search returns absent). -/
theorem claim_C7_witness :
    (∀ s ∈ envNoHits.get_search_queries "q" (envNoHits.get_base_url "http://u"),
      envNoHits.get_top_result s = none) ∧
    (find_page envNoHits (some "http://u") (some "q")).1 =
      ⟨423, Body.errorMsg "No relevant links found."⟩ := by
  have h := claim_C7_no_candidates envNoHits "http://u" "q" rfl rfl rfl
    (Or.inr (fun s _ => rfl))
  exact ⟨fun s _ => rfl, h.1⟩

/-- Claim C6: deduplication is idempotent — re-running the dedup step
on its own output changes nothing, neither as the working list nor as
the set of canonical serializations — and order-independent — permuting
the input leaves the deduplicated candidate set unchanged.  The
hypothesis is the JSON round trip `json.loads(json.dumps(c)) == c`. -/
theorem claim_C6_dedup_algebra (env : Env Cand)
    (hround : ∀ c, env.deserialize (env.serialize c) = c)
    (xs ys : List Cand) (hperm : xs.Perm ys) :
    dedupCandidates env (dedupCandidates env xs) = dedupCandidates env xs ∧
    dedupStrings env (dedupCandidates env xs) = dedupStrings env xs ∧
    dedupStrings env xs = dedupStrings env ys := by
  have hmap : (dedupCandidates env xs).map env.serialize = (xs.map env.serialize).dedup := by
    unfold dedupCandidates
    rw [List.map_map]
    have hfix : ∀ s ∈ (xs.map env.serialize).dedup,
        (env.serialize ∘ env.deserialize) s = s := by
      intro s hs
      rw [List.mem_dedup] at hs
      rcases List.mem_map.mp hs with ⟨x, _, rfl⟩
      simp [Function.comp_def, hround]
    rw [List.map_congr_left hfix]
    simp
  refine ⟨?_, ?_, List.toFinset_eq_of_perm _ _ (hperm.map _)⟩
  · have h1 : dedupCandidates env (dedupCandidates env xs) =
        (((dedupCandidates env xs).map env.serialize).dedup).map env.deserialize := rfl
    rw [h1, hmap, List.dedup_idem]
    rfl
  · have h2 : dedupStrings env (dedupCandidates env xs) =
        ((dedupCandidates env xs).map env.serialize).toFinset := rfl
    rw [h2, hmap]
    exact List.toFinset.ext fun x => List.mem_dedup

/-- Witness for `claim_C6_dedup_algebra` over `Cand := String` with the
identity serialization and a concrete three-element list and a
permutation of it. -/
theorem claim_C6_witness :
    dedupCandidates envBase (dedupCandidates envBase ["a", "b", "a"]) =
      dedupCandidates envBase ["a", "b", "a"] ∧
    dedupStrings envBase ["a", "b", "a"] = dedupStrings envBase ["b", "a", "a"] := by
  have h := claim_C6_dedup_algebra envBase (fun c => rfl) ["a", "b", "a"] ["b", "a", "a"]
    (by decide)
  exact ⟨h.1, h.2.2⟩

/-- Claim C8: a search that comes back absent for one expanded query
does not abort the others: the candidate collection, and the whole
response of the search-and-verify stage, are the same as if that query
had not been in the expansion at all. -/
theorem claim_C8_search_absent_skip (env : Env Cand) (q base qq : String)
    (xs ys : List String) (habs : env.get_top_result qq = none) :
    searchResultsList env (xs ++ qq :: ys) = searchResultsList env (xs ++ ys) ∧
    (searchAndVerify env q base (xs ++ qq :: ys)).1 =
      (searchAndVerify env q base (xs ++ ys)).1 := by
  have h1 : searchResultsList env (xs ++ qq :: ys) = searchResultsList env (xs ++ ys) := by
    unfold searchResultsList
    rw [List.filterMap_append, List.filterMap_cons_none habs, ← List.filterMap_append]
  refine ⟨h1, ?_⟩
  simp only [searchAndVerify]
  rw [h1]
  by_cases hc : (searchResultsList env (xs ++ ys)).length = 0
  · rw [if_pos hc, if_pos hc]
  · rw [if_neg hc, if_neg hc]
    cases hr : (verifierLoop env q base (searchResultsList env (xs ++ ys))).1.1 with
    | none => rfl
    | some l =>
      by_cases hl : l = "None"
      · simp only [hl, if_pos]
      · simp only [hl, if_neg, ite_false]

/-- Witness for `claim_C8_search_absent_skip` at `envDeadQuery` with the
absent query `"dead"` spliced between two productive queries. -/
theorem claim_C8_witness :
    envDeadQuery.get_top_result "dead" = none ∧
    searchResultsList envDeadQuery (["s1"] ++ "dead" :: ["s2"]) =
      searchResultsList envDeadQuery (["s1"] ++ ["s2"]) ∧
    (searchAndVerify envDeadQuery "q" "http://a.example" (["s1"] ++ "dead" :: ["s2"])).1 =
      (searchAndVerify envDeadQuery "q" "http://a.example" (["s1"] ++ ["s2"])).1 := by
  have h := claim_C8_search_absent_skip envDeadQuery "q" "http://a.example" "dead"
    ["s1"] ["s2"] rfl
  exact ⟨rfl, h.1, h.2⟩

/-- If the verifier loop ends with `page_content = some c` while the
accumulator entered with no content, the loop ended by `break`: the
final `relevant_link` is exactly the link whose fetch returned `c`. -/
theorem verifierLoopF_fetch_of_success (env : Env Cand) (q base : String) :
    ∀ (fuel : Nat) (lst : List Cand) (i : Nat) (acc : Option String × Option String)
      (rl : Option String) (c : String) (evs : List (Event Cand)),
      acc.2 = none →
      verifierLoopF env q base fuel lst i acc = ((rl, some c), evs) →
      env.fetch_page_content rl = some c := by
  intro fuel
  induction fuel with
  | zero =>
    intro lst i acc rl c evs hacc heq
    simp only [verifierLoopF] at heq
    have h1 : acc = (rl, some c) := congrArg Prod.fst heq
    rw [h1] at hacc
    simp at hacc
  | succ f ih =>
    intro lst i acc rl c evs hacc heq
    simp only [verifierLoopF] at heq
    by_cases hlt : i < lst.length
    · rw [dif_pos hlt] at heq
      by_cases hpc : (env.fetch_page_content (env.get_relevant_result q base lst)).isSome
      · rw [if_pos hpc] at heq
        have h1 : (env.get_relevant_result q base lst,
            env.fetch_page_content (env.get_relevant_result q base lst)) = (rl, some c) :=
          congrArg Prod.fst heq
        have h2 := congrArg Prod.fst h1
        have h3 := congrArg Prod.snd h1
        simp only at h2 h3
        rw [← h2, h3]
      · rw [if_neg hpc] at heq
        have h1 := congrArg Prod.fst heq
        simp only at h1
        have hnone : env.fetch_page_content (env.get_relevant_result q base lst) = none :=
          Option.not_isSome_iff_eq_none.mp hpc
        exact ih (lst.erase (lst.get ⟨i, hlt⟩)) (i + 1)
          (env.get_relevant_result q base lst,
           env.fetch_page_content (env.get_relevant_result q base lst)) rl c _
          (by simp [hnone]) (by rw [← h1])
    · rw [dif_neg hlt] at heq
      have h1 : acc = (rl, some c) := congrArg Prod.fst heq
      rw [h1] at hacc
      simp at hacc

/-- Claim C5: if the verifier loop ends with a successful fetch — the
selector returned an actual link `l` (not the `'None'` no-selection
sentinel) and `fetch_page_content` returned content `c` for it — then
the endpoint answers `200` with exactly that link, with the message
synthesized from exactly that fetched content; in particular the
returned link is one whose fetch succeeded, never an unfetched
candidate. -/
theorem claim_C5_verified_link (env : Env Cand) (u q l c : String)
    (evs : List (Event Cand))
    (hu : env.is_valid_url u = true) (hq : env.is_valid_query q = true)
    (hcls : env.is_user_searching q u = some true)
    (hloop : verifierLoop env q (env.get_base_url u)
        (searchResultsList env (env.get_search_queries q (env.get_base_url u))) =
      ((some l, some c), evs))
    (hl : l ≠ "None") :
    (find_page env (some u) (some q)).1 =
      ⟨200, Body.payload (some l)
        (env.gen_customer_response q (env.get_base_url u) l (some c))⟩ ∧
    env.fetch_page_content (some l) = some c := by
  have hfetch : env.fetch_page_content (some l) = some c := by
    unfold verifierLoop at hloop
    exact verifierLoopF_fetch_of_success env q (env.get_base_url u) _ _ _ _ _ _ _ rfl hloop
  have hne :
      ¬ (searchResultsList env (env.get_search_queries q (env.get_base_url u))).length = 0 := by
    intro h0
    have hnil := List.length_eq_zero.mp h0
    rw [hnil] at hloop
    have h1 := congrArg (fun p => p.1.1) hloop
    simp [verifierLoop, verifierLoopF] at h1
  have hsv : (searchAndVerify env q (env.get_base_url u)
      (env.get_search_queries q (env.get_base_url u))).1 =
      ⟨200, Body.payload (some l)
        (env.gen_customer_response q (env.get_base_url u) l (some c))⟩ := by
    simp only [searchAndVerify]
    rw [if_neg hne, hloop]
    simp [hl]
  refine ⟨?_, hfetch⟩
  simp only [find_page]
  rw [hu, hq, hcls]
  simpa [truthy] using hsv

/-- Witness for `claim_C5_verified_link` at `envBase`: one candidate
`"s1"`, selected on the first iteration and fetched successfully. -/
theorem claim_C5_witness :
    verifierLoop envBase "q" (envBase.get_base_url "http://u")
        (searchResultsList envBase (envBase.get_search_queries "q"
          (envBase.get_base_url "http://u"))) =
      ((some "s1", some "content of s1"),
       [Event.selectBest "q" "http://a.example" ["s1"],
        Event.fetchContent (some "s1")]) ∧
    (find_page envBase (some "http://u") (some "q")).1 =
      ⟨200, Body.payload (some "s1") "grounded reply"⟩ ∧
    envBase.fetch_page_content (some "s1") = some "content of s1" := by
  have h := claim_C5_verified_link envBase "http://u" "q" "s1" "content of s1"
    [Event.selectBest "q" "http://a.example" ["s1"], Event.fetchContent (some "s1")]
    rfl rfl rfl rfl (by decide)
  exact ⟨rfl, h.1, h.2⟩

/-- Every candidate selection inside the verifier loop is made from the
current working list, which is non-empty whenever an iteration runs. -/
theorem verifierLoopF_selectBest_nonempty (env : Env Cand) (q base : String) :
    ∀ (fuel : Nat) (lst : List Cand) (i : Nat) (acc : Option String × Option String)
      (qq bb : String) (cc : List Cand),
      Event.selectBest qq bb cc ∈ (verifierLoopF env q base fuel lst i acc).2 → cc ≠ [] := by
  intro fuel
  induction fuel with
  | zero =>
    intro lst i acc qq bb cc hmem
    simp [verifierLoopF] at hmem
  | succ f ih =>
    intro lst i acc qq bb cc hmem
    simp only [verifierLoopF] at hmem
    by_cases hlt : i < lst.length
    · have hlst : lst ≠ [] := List.ne_nil_of_length_pos (by omega)
      rw [dif_pos hlt] at hmem
      by_cases hpc : (env.fetch_page_content (env.get_relevant_result q base lst)).isSome
      · rw [if_pos hpc] at hmem
        simp only [List.mem_cons, List.mem_singleton] at hmem
        rcases hmem with h | h | h
        · rcases Event.selectBest.inj h with ⟨-, -, rfl⟩
          exact hlst
        · exact absurd h (by simp)
        · simp at h
      · rw [if_neg hpc] at hmem
        simp only [List.mem_cons] at hmem
        rcases hmem with h | h | h
        · rcases Event.selectBest.inj h with ⟨-, -, rfl⟩
          exact hlst
        · exact absurd h (by simp)
        · exact ih _ _ _ _ _ _ h
    · rw [dif_neg hlt] at hmem
      simp at hmem

/-- Candidate selections made by the search-and-verify stage always
receive a non-empty working list. -/
theorem searchAndVerify_selectBest_nonempty (env : Env Cand) (q base : String)
    (sqs : List String) (qq bb : String) (cc : List Cand)
    (h : Event.selectBest qq bb cc ∈ (searchAndVerify env q base sqs).2) : cc ≠ [] := by
  simp only [searchAndVerify] at h
  by_cases hc : (searchResultsList env sqs).length = 0
  · rw [if_pos hc] at h
    simp at h
  · rw [if_neg hc] at h
    have hloop : ∀ (e : Event Cand),
        e ∈ (verifierLoop env q base (searchResultsList env sqs)).2 →
        e = Event.selectBest qq bb cc → cc ≠ [] := by
      intro e hmem he
      rw [he] at hmem
      exact verifierLoopF_selectBest_nonempty env q base _ _ _ _ _ _ _ hmem
    cases hr : (verifierLoop env q base (searchResultsList env sqs)).1.1 with
    | none =>
      rw [hr] at h
      refine hloop _ ?_ rfl
      simpa using h
    | some l =>
      rw [hr] at h
      by_cases hl : l = "None"
      · simp only [hl, if_pos] at h
        refine hloop _ ?_ rfl
        simpa using h
      · simp only [hl, if_neg, ite_false] at h
        refine hloop _ ?_ rfl
        simpa using h

/-- Claim C10: the selector `get_relevant_result` is never invoked on
an empty candidate list: every selection event in any request's trace
carries a non-empty working list (the empty candidate set
short-circuits to 423 before the loop, and the loop only runs an
iteration while its index is inside the list). -/
theorem claim_C10_selector_nonempty (env : Env Cand) (url query : Option String)
    (qq bb : String) (cc : List Cand)
    (hmem : Event.selectBest qq bb cc ∈ (find_page env url query).2) : cc ≠ [] := by
  match url, query with
  | none, _ => simp [find_page] at hmem
  | some u, none => simp [find_page] at hmem
  | some u, some q =>
    simp only [find_page] at hmem
    by_cases hu : env.is_valid_url u = false
    · rw [if_pos hu] at hmem
      simp at hmem
    · rw [if_neg hu] at hmem
      by_cases hq : env.is_valid_query q = false
      · rw [if_pos hq] at hmem
        simp at hmem
      · rw [if_neg hq] at hmem
        by_cases hcls : truthy (env.is_user_searching q u) = false
        · rw [if_pos hcls] at hmem
          simp at hmem
        · rw [if_neg hcls] at hmem
          by_cases hnone : env.is_user_searching q u = none
          · rw [if_pos hnone] at hmem
            simp at hmem
          · rw [if_neg hnone] at hmem
            simp only [List.mem_cons] at hmem
            rcases hmem with h | h
            · exact absurd h (by simp)
            · exact searchAndVerify_selectBest_nonempty env _ _ _ _ _ _ h

/-- Witness for `claim_C10_selector_nonempty`: the single selection
event in `envBase`'s trace carries the non-empty list `["s1"]`. -/
theorem claim_C10_witness :
    Event.selectBest "q" "http://a.example" ["s1"] ∈
      (find_page envBase (some "http://u") (some "q")).2 ∧
    (["s1"] : List String) ≠ [] := by
  have hm : Event.selectBest "q" "http://a.example" ["s1"] ∈
      (find_page envBase (some "http://u") (some "q")).2 := by decide
  exact ⟨hm, claim_C10_selector_nonempty envBase _ _ _ _ _ hm⟩

end GatorHacks
